import Mathlib

/-!
Shallow embedding of the request-lifecycle and orchestration coordinator of
the `SEproj1a1` backend (`src/backend/app/main.py`, `chat_storage.py`,
`engine.py`), together with theorems settling the specification claims.

Modelling conventions:
* Text relayed through the streaming pipeline is represented as `List Char`
  (Python strings index by code point, matching `List Char` positions);
  configuration strings that are only compared for equality stay `String`.
* `async` functions become pure functions; the external vLLM engine is a
  parameter (the list of cumulative texts it yields, together with the
  `finish_reason` attribute of each yielded generation).
* Fallible code returns `Except`; the module-level scheduler globals
  (`_orchestrator_update_task`, `_orchestrator_refresh_pending`) become an
  explicit state record threaded through the transition functions.
* Python float-valued sampling knobs are carried as `Rat`: the coordinator
  never computes with them, it only copies them around.
-/

namespace SEproj

/-- Text as the list of its characters (Python code-point indexing). -/
abbrev Text : Type := List Char

/-! ### Python string helpers used by the source -/

/-- The whitespace characters stripped by Python `str.strip()` (ASCII part). -/
def pyIsSpace (c : Char) : Bool :=
  c == ' ' || c == '\t' || c == '\n' || c == '\r' || c == '\x0b' || c == '\x0c'

/-- Python `str.strip()` on character lists. -/
def pyStripList (t : Text) : Text :=
  ((t.dropWhile pyIsSpace).reverse.dropWhile pyIsSpace).reverse

/-- Python `str.strip()`. -/
def pyStrip (s : String) : String :=
  (pyStripList s.toList).asString

/-- Python `str.rstrip()`. -/
def pyRstrip (s : String) : String :=
  ((s.toList.reverse.dropWhile pyIsSpace).reverse).asString

/-- Python `str.lower()` (ASCII). -/
def pyLower (s : String) : String :=
  (s.toList.map Char.toLower).asString

/-- Python `str.capitalize()`: first character upper-cased, the rest
lower-cased (ASCII). -/
def pyCapitalize (s : String) : String :=
  match s.toList with
  | [] => ""
  | c :: rest => (c.toUpper :: rest.map Char.toLower).asString

/-- Python `str.splitlines()` restricted to `\n` separators: the empty
string yields no lines at all. -/
def pySplitlines (s : String) : List String :=
  if s = "" then [] else s.splitOn "\n"

/-! ### Data model (`main.py` request payloads, `chat_storage.py` records) -/

/-- `ChatMessage` (main.py 43-55): one conversation turn. The pydantic
validator restricts `role` to system/user/assistant; the functions below are
modelled on arbitrary role strings, exactly as the Python functions would
behave if called directly. -/
structure ChatMessage where
  role : String
  content : String
  deriving DecidableEq, Repr

/-- The per-request sampling configuration captured for persistence by
`build_generation_metadata` (main.py 227-237). -/
structure GenerationMetadata where
  max_tokens : Nat
  temperature : Rat
  top_p : Rat
  presence_penalty : Rat
  frequency_penalty : Rat
  stop : Option (List String)
  stream : Bool
  deriving DecidableEq, Repr

/-- `GenerateRequest` (main.py 58-80): payload of the generate endpoint. -/
structure GenerateRequest where
  messages : List ChatMessage
  stream : Bool
  max_tokens : Nat
  temperature : Rat
  top_p : Rat
  presence_penalty : Rat
  frequency_penalty : Rat
  stop : Option (List String)
  persona : Option String
  deriving DecidableEq, Repr

/-- `build_generation_metadata` (main.py 227-237). -/
def build_generation_metadata (payload : GenerateRequest) : GenerationMetadata :=
  { max_tokens := payload.max_tokens
    temperature := payload.temperature
    top_p := payload.top_p
    presence_penalty := payload.presence_penalty
    frequency_penalty := payload.frequency_penalty
    stop := payload.stop
    stream := payload.stream }

/-! ### RefreshScheduler: `schedule_orchestrator_refresh` (main.py 478-506)

The module globals are `_orchestrator_update_task` (a task handle, reset to
`None` by the completion callback) and `_orchestrator_refresh_pending`.
`taskRunning` models `_orchestrator_update_task is not None and not
_orchestrator_update_task.done()`. Each transition additionally reports how
many background executions of `refresh_orchestrator_state` it spawned via
`loop.create_task`. -/

structure RefreshState where
  taskRunning : Bool
  refreshPending : Bool
  deriving DecidableEq, Repr

/-- `schedule_orchestrator_refresh` (main.py 478-492): if a task is in
flight, only set the pending flag; otherwise create a task (one spawn).
The spawn branch does not touch the pending flag, exactly as the code. -/
def schedule_orchestrator_refresh (s : RefreshState) : RefreshState × Nat :=
  if s.taskRunning then ({ s with refreshPending := true }, 0)
  else ({ s with taskRunning := true }, 1)

/-- `_handle_completion` (main.py 494-506): the done-callback clears the
task handle, then, if the pending flag was set, clears it and calls
`schedule_orchestrator_refresh` again (which now spawns, since no task is
in flight any more). -/
def handle_completion (s : RefreshState) : RefreshState × Nat :=
  let s1 : RefreshState := { s with taskRunning := false }
  if s1.refreshPending then
    schedule_orchestrator_refresh { s1 with refreshPending := false }
  else (s1, 0)

/-- `n` successive calls to `schedule_orchestrator_refresh`, accumulating
the number of spawned executions. -/
def scheduleN : Nat → RefreshState → RefreshState × Nat
  | 0, s => (s, 0)
  | n + 1, s =>
    let r1 := schedule_orchestrator_refresh s
    let r2 := scheduleN n r1.1
    (r2.1, r1.2 + r2.2)

/-! ### Prompt construction (`format_chat_prompt`, main.py 201-219 and
`build_prompt`, engine.py 160-180) -/

/-- The fixed instruction segment appended by `format_chat_prompt`
(main.py 212-216) before the final `Assistant:` marker. -/
def SYSTEM_GUARD_SEGMENT : String :=
  "System: Reply directly to the user. Do not narrate analysis or internal thoughts. Do not create new System/User/Assistant turns, restate the conversation log, or add meta commentary such as \x27Assistant:\x27/\x27Answer:\x27 labels or closing markers. Provide a single, user-facing answer."

/-- One loop iteration of `format_chat_prompt` (main.py 207-210):
`f"{message.role.capitalize()}: {message.content.strip()}"`. -/
def renderChatMessage (m : ChatMessage) : String :=
  pyCapitalize m.role ++ ": " ++ pyStrip m.content

/-- The `prompt_segments` list built by `format_chat_prompt`
(main.py 206-218): one segment per message — with no emptiness check —
then the guard instruction, then the trailing `Assistant:` marker. -/
def chatPromptSegments (messages : List ChatMessage) : List String :=
  messages.foldl (fun segs m => segs ++ [renderChatMessage m]) []
    ++ [SYSTEM_GUARD_SEGMENT, "Assistant:"]

/-- `format_chat_prompt` (main.py 201-219): raises `ValueError` on an empty
message list, otherwise joins the segments with blank lines. -/
def format_chat_prompt (messages : List ChatMessage) : Except String String :=
  if messages.isEmpty then Except.error "At least one message is required."
  else Except.ok (String.intercalate "\n\n" (chatPromptSegments messages))

/-- The `role_labels` lookup of `build_prompt` (engine.py 161-165, 173):
`role_labels.get(role, role.capitalize())`. -/
def role_label (role : String) : String :=
  if role = "system" then "System"
  else if role = "user" then "User"
  else if role = "assistant" then "Assistant"
  else pyCapitalize role

/-- `build_prompt` (engine.py 160-180): optional persona line, then one
line per message with non-empty stripped content, then `Assistant:`, all
joined by single newlines.  A `none`/empty persona is falsy in Python and
contributes no line. -/
def build_prompt (messages : List ChatMessage) (persona : Option String) : String :=
  let personaLines : List String :=
    match persona with
    | some p => if p = "" then [] else ["Persona: " ++ p]
    | none => []
  let bodyLines :=
    messages.foldl
      (fun ls m =>
        let content := pyStrip m.content
        if content = "" then ls
        else ls ++ [role_label (pyLower m.role) ++ ": " ++ content])
      personaLines
  String.intercalate "\n" (bodyLines ++ ["Assistant:"])

/-! ### Streaming relay: `iterate_generation` (main.py 526-587)

The engine stream is modelled as the list of generations it yields: the
cumulative `text` of `request_output.outputs[0]` plus that generation's
`finish_reason` attribute.  `request_output`s with an empty `outputs` list
are skipped by the code (`continue`) before touching any state, so they are
omitted from the model. -/

/-- One NDJSON event yielded by `iterate_generation`. -/
inductive StreamEvent where
  | token (delta : Text) (content : Text) (request_id : String)
  | done (content : Text) (finish_reason : Option String) (request_id : String)
  | failure (message : String) (request_id : String)
  deriving DecidableEq, Repr

/-- Whether an event is the `type: "error"` NDJSON record. -/
def StreamEvent.isFailure : StreamEvent → Bool
  | .failure _ _ => true
  | _ => false

/-- Whether an event is the terminal `type: "done"` record. -/
def StreamEvent.isDone : StreamEvent → Bool
  | .done _ _ _ => true
  | _ => false

/-- The delta of a token event, if any. -/
def StreamEvent.tokenDelta : StreamEvent → Option Text
  | .token d _ _ => some d
  | _ => none

/-- The cumulative content carried by a token event, if any. -/
def StreamEvent.tokenContent : StreamEvent → Option Text
  | .token _ c _ => some c
  | _ => none

/-- All deltas of the token events, in relay order. -/
def tokenDeltas (evs : List StreamEvent) : List Text :=
  evs.filterMap StreamEvent.tokenDelta

/-- All cumulative contents of the token events, in relay order. -/
def tokenContents (evs : List StreamEvent) : List Text :=
  evs.filterMap StreamEvent.tokenContent

/-- The transcript record handed to `persist_chat_transcript`
(main.py 240-263) by the request path; `created_at` is stamped inside
`persist_chat_transcript` and is irrelevant to the request-path claims. -/
structure PersistedTranscript where
  request_id : String
  messages : List ChatMessage
  response_text : Text
  finish_reason : Option String
  persona : Option String
  parameters : GenerationMetadata
  deriving DecidableEq, Repr

/-- The streaming loop of `iterate_generation` (main.py 538-564): for each
generation, `delta = text[len(previous_text):]`; `last_generation` is
updated unconditionally, while `previous_text` advances and a token event
is yielded only when the delta is non-empty.  Returns the yielded events,
the final `previous_text`, and the final `last_generation`. -/
def generationLoop (rid : String) :
    List (Text × Option String) → Text → Option (Text × Option String) →
      List StreamEvent × Text × Option (Text × Option String)
  | [], prev, lastGen => ([], prev, lastGen)
  | (text, fr) :: rest, prev, _ =>
    let delta := text.drop prev.length
    if delta = [] then generationLoop rid rest prev (some (text, fr))
    else
      let r := generationLoop rid rest text (some (text, fr))
      (StreamEvent.token delta text rid :: r.1, r.2)

/-- The result of one full run of `iterate_generation`: the NDJSON events
yielded to the caller, the transcript handed to `persist_chat_transcript`,
and whether `schedule_orchestrator_refresh` was signalled. -/
structure StreamRun where
  events : List StreamEvent
  persisted : Option PersistedTranscript
  refreshScheduled : Bool
  deriving DecidableEq, Repr

/-- `iterate_generation` (main.py 526-587) on a stream the engine completes
normally: relay the loop events, read `finish_reason` off the last
generation (`None` when the engine yielded nothing), persist once with the
accumulated text, signal a refresh, then yield the `done` event. -/
def iterate_generation (rid : String) (engineOutputs : List (Text × Option String))
    (messages : List ChatMessage) (persona : Option String)
    (params : GenerationMetadata) : StreamRun :=
  let r := generationLoop rid engineOutputs [] none
  let finish_reason : Option String :=
    match r.2.2 with
    | none => none
    | some g => g.2
  { events := r.1 ++ [StreamEvent.done r.2.1 finish_reason rid]
    persisted := some
      { request_id := rid
        messages := messages
        response_text := r.2.1
        finish_reason := finish_reason
        persona := persona
        parameters := params }
    refreshScheduled := true }

/-- `iterate_generation` when the caller disconnects after consuming `k`
relayed events: the generator is resumed with `CancelledError`
(a `BaseException` in Python ≥ 3.8), which the `except Exception` clause at
main.py 584 does not catch, so the generator unwinds without reaching
`persist_chat_transcript`, `schedule_orchestrator_refresh`, or the `done`
yield. -/
def iterate_generation_cancelled (rid : String)
    (engineOutputs : List (Text × Option String)) (k : Nat)
    (_messages : List ChatMessage) (_persona : Option String)
    (_params : GenerationMetadata) : StreamRun :=
  let r := generationLoop rid engineOutputs [] none
  { events := r.1.take k
    persisted := none
    refreshScheduled := false }

/-! ### Local engine stream: `_local_stream_generate` (engine.py 183-216) -/

/-- The yield loop of `_local_stream_generate` (engine.py 198-209): empty
cumulative texts are skipped, `previous_text` is advanced unconditionally
otherwise, and only non-empty deltas are yielded. -/
def localStreamDeltas : List Text → Text → List Text
  | [], _ => []
  | text :: rest, prev =>
    if text = [] then localStreamDeltas rest prev
    else
      let delta := text.drop prev.length
      if delta = [] then localStreamDeltas rest text
      else delta :: localStreamDeltas rest text

/-- Outcome of a `_local_stream_generate` run that the consumer cancels. -/
structure LocalStreamRun where
  yielded : List Text
  abortCalled : Bool
  deriving DecidableEq, Repr

/-- `_local_stream_generate` (engine.py 183-216) when the consumer cancels
after taking `k` deltas: the `except asyncio.CancelledError` handler at
engine.py 210-212 calls `engine.abort_request(request_id)` and re-raises. -/
def local_stream_generate_cancelled (chunks : List Text) (k : Nat) : LocalStreamRun :=
  { yielded := (localStreamDeltas chunks []).take k
    abortCalled := true }

/-! ### The generate endpoint (`generate`, main.py 603-663) -/

/-- The response of the generate endpoint: either the NDJSON streaming
body or the buffered JSON object `{output, finish_reason, request_id}`. -/
inductive GenerateResult where
  | streamed (events : List StreamEvent)
  | buffered (output : Text) (finish_reason : Option String)
  deriving DecidableEq, Repr

instance {ε α : Type} [DecidableEq ε] [DecidableEq α] : DecidableEq (Except ε α)
  | Except.error e₁, Except.error e₂ =>
    if h : e₁ = e₂ then isTrue (by rw [h]) else isFalse (by intro hh; cases hh; exact h rfl)
  | Except.error _, Except.ok _ => isFalse (by intro hh; cases hh)
  | Except.ok _, Except.error _ => isFalse (by intro hh; cases hh)
  | Except.ok a₁, Except.ok a₂ =>
    if h : a₁ = a₂ then isTrue (by rw [h]) else isFalse (by intro hh; cases hh; exact h rfl)

/-- Everything observable about one call of the `generate` endpoint:
the HTTP result (`Except` carries `HTTPException(status, detail)`),
whether the engine was invoked at all, what was persisted, and whether a
background refresh was signalled. -/
structure GenerateRun where
  result : Except (Nat × String) GenerateResult
  engineCalled : Bool
  persisted : Option PersistedTranscript
  refreshScheduled : Bool
  deriving DecidableEq, Repr

/-- The buffered consumption loop of `generate` (main.py 638-647):
`latest_text` and `finish_reason` are overwritten by every generation, so
the result is the last one (or the initial `"", None`). -/
def bufferedLoop : List (Text × Option String) → Text → Option String → Text × Option String
  | [], latest, fr => (latest, fr)
  | (text, r) :: rest, _, _ => bufferedLoop rest text r

/-- `generate` (main.py 603-663): validate via `format_chat_prompt`
(HTTP 400 on `ValueError`, before the request id, the engine, or any
persistence), then either hand off to `iterate_generation` (streaming) or
consume the engine buffered, persist the stripped final text once, signal
a refresh and return the stripped output. -/
def generate (payload : GenerateRequest) (engineOutputs : List (Text × Option String))
    (rid : String) : GenerateRun :=
  match format_chat_prompt payload.messages with
  | Except.error msg =>
    { result := Except.error (400, msg)
      engineCalled := false
      persisted := none
      refreshScheduled := false }
  | Except.ok _ =>
    if payload.stream then
      let run := iterate_generation rid engineOutputs payload.messages payload.persona
        (build_generation_metadata payload)
      { result := Except.ok (GenerateResult.streamed run.events)
        engineCalled := true
        persisted := run.persisted
        refreshScheduled := run.refreshScheduled }
    else
      let final := bufferedLoop engineOutputs [] none
      { result := Except.ok (GenerateResult.buffered (pyStripList final.1) final.2)
        engineCalled := true
        persisted := some
          { request_id := rid
            messages := payload.messages
            response_text := pyStripList final.1
            finish_reason := final.2
            persona := payload.persona
            parameters := build_generation_metadata payload }
        refreshScheduled := true }

/-! ### Sampling parameters (`build_sampling_params`, main.py 508-523) -/

/-- `DEFAULT_STOP_SEQUENCES` (main.py 40). -/
def DEFAULT_STOP_SEQUENCES : List String := ["\nSystem:", "\nUser:"]

/-- `list(dict.fromkeys(xs))`: remove duplicates, keeping the first
occurrence of each element in order. -/
def dedupKeepFirst : List String → List String
  | [] => []
  | a :: l => a :: dedupKeepFirst (l.filter (fun b => b != a))
termination_by l => l.length
decreasing_by
  simp only [List.length_cons]
  exact Nat.lt_succ_of_le (List.Sublist.length_le (List.filter_sublist _))

/-- The `stop_sequences` computation of `build_sampling_params`
(main.py 510-513): defaults only when the caller supplied no stops (or the
falsy empty list), otherwise the caller stops followed by the defaults,
deduplicated keeping first occurrences. -/
def build_stop_sequences (stop : Option (List String)) : List String :=
  match stop with
  | none => DEFAULT_STOP_SEQUENCES
  | some [] => DEFAULT_STOP_SEQUENCES
  | some l => dedupKeepFirst (l ++ DEFAULT_STOP_SEQUENCES)

/-- The `SamplingParams` record assembled by `build_sampling_params`
(main.py 514-523). -/
structure SamplingParamsM where
  n : Nat
  best_of : Nat
  max_tokens : Nat
  temperature : Rat
  top_p : Rat
  presence_penalty : Rat
  frequency_penalty : Rat
  stop : List String
  deriving DecidableEq, Repr

/-- `build_sampling_params` (main.py 508-523). -/
def build_sampling_params (payload : GenerateRequest) : SamplingParamsM :=
  { n := 1
    best_of := 1
    max_tokens := payload.max_tokens
    temperature := payload.temperature
    top_p := payload.top_p
    presence_penalty := payload.presence_penalty
    frequency_penalty := payload.frequency_penalty
    stop := build_stop_sequences payload.stop }

/-! ### Transcript storage (`chat_storage.py`) -/

/-- A character kept verbatim by the `[^a-z0-9]+` substitution in
`_normalise_persona` (chat_storage.py 22). -/
def isSlugChar (c : Char) : Bool :=
  c.isLower || c.isDigit

/-- `re.sub(r"[^a-z0-9]+", "-", s)`: each maximal run of non-slug
characters collapses to one dash. -/
def subNonSlug : Text → Text
  | [] => []
  | c :: rest =>
    if isSlugChar c then c :: subNonSlug rest
    else '-' :: subNonSlug (rest.dropWhile (fun d => !isSlugChar d))
termination_by l => l.length
decreasing_by
  all_goals simp only [List.length_cons]
  · exact Nat.lt_succ_of_le (Nat.le_refl _)
  · exact Nat.lt_succ_of_le (List.Sublist.length_le (List.dropWhile_sublist _))

/-- `s.strip("-")`. -/
def stripDashes (t : Text) : Text :=
  ((t.dropWhile (fun c => c == '-')).reverse.dropWhile (fun c => c == '-')).reverse

/-- `_normalise_persona` (chat_storage.py 18-24): falsy personas map to
`"general"`; otherwise strip, lower-case, collapse non-alphanumeric runs to
dashes, strip dashes, and fall back to `"general"` if nothing remains. -/
def _normalise_persona (persona : Option String) : String :=
  match persona with
  | none => "general"
  | some p =>
    if p = "" then "general"
    else
      let slug := stripDashes (subNonSlug ((pyStripList p.toList).map Char.toLower))
      if slug = [] then "general" else slug.asString

/-- `ChatTranscript` (chat_storage.py 27-38); `created_at` is the UTC
creation instant, modelled by a totally ordered `Nat` (`datetime` values
compare totally). `source_path` is bookkeeping the claims never read. -/
structure ChatTranscript where
  request_id : String
  messages : List ChatMessage
  response_text : String
  finish_reason : Option String
  persona : Option String
  parameters : GenerationMetadata
  created_at : Nat
  deriving DecidableEq, Repr

/-- The JSON document produced by `ChatTranscript.as_dict`
(chat_storage.py 40-53). -/
structure TranscriptJson where
  request_id : String
  created_at : Nat
  persona : Option String
  stakeholder : Option String
  messages : List ChatMessage
  response_content : String
  response_finish_reason : Option String
  generation_parameters : GenerationMetadata
  deriving DecidableEq, Repr

/-- `ChatTranscript.as_dict` (chat_storage.py 40-53): the `persona` field
is written back verbatim (and duplicated as `stakeholder`). -/
def ChatTranscript.as_dict (t : ChatTranscript) : TranscriptJson :=
  { request_id := t.request_id
    created_at := t.created_at
    persona := t.persona
    stakeholder := t.persona
    messages := t.messages
    response_content := t.response_text
    response_finish_reason := t.finish_reason
    generation_parameters := t.parameters }

/-- The persona directory chosen by `ChatStorage._build_file_path`
(chat_storage.py 92-96). -/
def ChatStorage.file_persona_slug (t : ChatTranscript) : String :=
  _normalise_persona t.persona

/-- The grouping key `payload.get("persona") or "general"` used by
`ChatStorage._load_transcripts_sync` (chat_storage.py 123) when reading a
persisted document back: falsy values (absent, `null`, empty string) fall
back to `"general"`. -/
def personaKeyOfJson (j : TranscriptJson) : String :=
  match j.persona with
  | none => "general"
  | some "" => "general"
  | some p => p

/-- Python `list.sort(key=created_at)` order: ascending creation time. -/
def ascCreated (a b : ChatTranscript) : Prop :=
  a.created_at ≤ b.created_at

/-- Python `list.sort(key=created_at, reverse=True)` order: descending
creation time. -/
def descCreated (a b : ChatTranscript) : Prop :=
  b.created_at ≤ a.created_at

instance : DecidableRel ascCreated := fun a b => Nat.decLe a.created_at b.created_at

instance : DecidableRel descCreated := fun a b => Nat.decLe b.created_at a.created_at

instance : IsTotal ChatTranscript ascCreated :=
  ⟨fun a b => Nat.le_total a.created_at b.created_at⟩

instance : IsTrans ChatTranscript ascCreated :=
  ⟨fun _ _ _ h₁ h₂ => Nat.le_trans h₁ h₂⟩

instance : IsTotal ChatTranscript descCreated :=
  ⟨fun a b => Nat.le_total b.created_at a.created_at⟩

instance : IsTrans ChatTranscript descCreated :=
  ⟨fun _ _ _ h₁ h₂ => Nat.le_trans h₂ h₁⟩

/-- The per-persona cap of `_load_transcripts_sync` (chat_storage.py
131-136): sort newest-first, keep the first `limit`, re-sort oldest-first.
`List.insertionSort` inserts earlier elements in front of later equal
ones, matching the stability of Python `list.sort` (with and without
`reverse=True`). -/
def capPersonaList (limit : Nat) (ts : List ChatTranscript) : List ChatTranscript :=
  ((ts.insertionSort descCreated).take limit).insertionSort ascCreated

/-- `ChatStorage._load_transcripts_sync` (chat_storage.py 109-141) after
the per-file parsing: `groups` is the `transcripts_by_persona` dict in
insertion order (grouping key from `personaKeyOfJson`, transcripts in file
discovery order).  The persona filter is falsy for `None` and for the
empty list; a falsy `limit_per_persona` (absent or 0) only re-sorts each
list chronologically. -/
def load_transcripts_sync (groups : List (String × List ChatTranscript))
    (personas : Option (List String)) (limit_per_persona : Option Nat) :
    List (String × List ChatTranscript) :=
  let persona_filter : Option (List String) :=
    match personas with
    | none => none
    | some [] => none
    | some l => some (l.map fun p => pyLower (pyStrip p))
  let filtered :=
    match persona_filter with
    | none => groups
    | some f => groups.filter fun g => f.contains (pyLower (pyStrip g.1))
  match limit_per_persona with
  | none => filtered.map fun g => (g.1, g.2.insertionSort ascCreated)
  | some 0 => filtered.map fun g => (g.1, g.2.insertionSort ascCreated)
  | some (n + 1) => filtered.map fun g => (g.1, capPersonaList (n + 1) g.2)

/-! ### OrchestratorJob (`run_orchestrator_job`, main.py 415-455) -/

/-- The only typed failure of the orchestrator pipeline: the
`ValueError("No transcripts available for the requested personas.")`
raised at main.py 430 and 446. -/
inductive OrchError where
  | NoTranscripts
  deriving DecidableEq, Repr

/-- `OrchestratorResponse` (main.py 114-118); the summaries dict is kept in
insertion order. -/
structure OrchestratorResponse where
  summaries : List (String × String)
  requirements_document : String
  deriving DecidableEq, Repr

/-- `clamp_lines` (main.py 348-354). -/
def clamp_lines (text : String) (max_lines : Nat) : String :=
  if text = "" then text
  else
    let lines := (pySplitlines (pyStrip text)).map pyRstrip
    let limited := lines.take max_lines
    pyStrip (String.intercalate "\n" limited)

/-- `run_orchestrator_job` (main.py 415-455).  `transcripts_by_persona` is
the grouping returned by `load_transcripts_sync`; `summaryOf p ts` stands
for the engine call `generate_text_response(build_summary_prompt(p, ts),
…)` (a stripped completion, main.py 436-442) and `requirementsOf` for
`generate_requirements_document` (main.py 450-453) — both are external
generation-service collaborators.  Personas with empty lists are skipped;
every summarised persona is entered into the dict, clamped to five lines,
even when the summary text is empty. -/
def run_orchestrator_job (transcripts_by_persona : List (String × List ChatTranscript))
    (summaryOf : String → List ChatTranscript → String)
    (requirementsOf : List (String × String) → String)
    (include_requirements : Bool) : Except OrchError OrchestratorResponse :=
  if transcripts_by_persona = [] then Except.error OrchError.NoTranscripts
  else
    let summaries := transcripts_by_persona.foldl
      (fun acc pt =>
        if pt.2 = [] then acc
        else acc ++ [(pt.1, clamp_lines (summaryOf pt.1 pt.2) 5)])
      []
    if summaries = [] then Except.error OrchError.NoTranscripts
    else
      Except.ok
        { summaries := summaries
          requirements_document :=
            if include_requirements then requirementsOf summaries else "" }

/-- Six concrete transcripts for the persona `"pm"` (Scenario D input),
oldest first, with distinct creation instants. -/
def pmExampleTranscripts : List ChatTranscript :=
  (List.range 6).map fun i =>
    { request_id := "t" ++ toString i
      messages := []
      response_text := ""
      finish_reason := none
      persona := some "pm"
      parameters := ⟨0, 0, 0, 0, 0, none, false⟩
      created_at := i }

/-! ## Theorems -/

/-! ### RefreshScheduler helpers -/

theorem scheduleN_running_pending (n : Nat) :
    scheduleN n ⟨true, true⟩ = (⟨true, true⟩, 0) := by
  induction n with
  | zero => rfl
  | succ m ih => simp [scheduleN, schedule_orchestrator_refresh, ih]

theorem scheduleN_running (n : Nat) (p : Bool) (h : 1 ≤ n) :
    scheduleN n ⟨true, p⟩ = (⟨true, true⟩, 0) := by
  cases n with
  | zero => omega
  | succ m =>
    simp [scheduleN, schedule_orchestrator_refresh, scheduleN_running_pending]

/-- C1: single-flight refresh coalescing.  With a run in flight
(`taskRunning = true`, any pending flag), `N ≥ 2` requests spawn no
execution and leave the machine in Running+Pending; the in-flight run's
completion callback then spawns exactly one follow-up execution; a request
arriving with no run in flight spawns one immediately; and a spawn only
ever happens when no task is in flight, so runs never overlap. -/
theorem C1_refresh_coalescing (n : Nat) (p : Bool) (hn : 2 ≤ n) :
    scheduleN n ⟨true, p⟩ = (⟨true, true⟩, 0) ∧
    handle_completion ⟨true, true⟩ = (⟨true, false⟩, 1) ∧
    (∀ q : Bool, schedule_orchestrator_refresh ⟨false, q⟩ = (⟨true, q⟩, 1)) ∧
    (∀ s : RefreshState, (schedule_orchestrator_refresh s).2 ≠ 0 →
      s.taskRunning = false ∧ (schedule_orchestrator_refresh s).1.taskRunning = true) := by
  refine ⟨scheduleN_running n p (by omega), by decide, by decide, ?_⟩
  intro s hs
  by_cases hr : s.taskRunning
  · simp [schedule_orchestrator_refresh, hr] at hs
  · simp [schedule_orchestrator_refresh, hr]

/-- Witness for C1 at `n = 2`, pending flag initially clear. -/
theorem C1_refresh_coalescing_witness :
    scheduleN 2 ⟨true, false⟩ = (⟨true, true⟩, 0) ∧
    handle_completion ⟨true, true⟩ = (⟨true, false⟩, 1) ∧
    (∀ q : Bool, schedule_orchestrator_refresh ⟨false, q⟩ = (⟨true, q⟩, 1)) ∧
    (∀ s : RefreshState, (schedule_orchestrator_refresh s).2 ≠ 0 →
      s.taskRunning = false ∧ (schedule_orchestrator_refresh s).1.taskRunning = true) :=
  C1_refresh_coalescing 2 false (by decide)

/-! ### Streaming relay helpers -/

theorem append_drop_of_isPrefix {l₁ l₂ : Text} (h : l₁ <+: l₂) :
    l₁ ++ l₂.drop l₁.length = l₂ := by
  obtain ⟨t, rfl⟩ := h
  rw [List.drop_left]

theorem generationLoop_concat (rid : String) (outs : List (Text × Option String))
    (prev : Text) (g : Option (Text × Option String))
    (h : List.Chain' (· <+: ·) (prev :: outs.map Prod.fst)) :
    prev ++ (tokenDeltas (generationLoop rid outs prev g).1).flatten =
      (generationLoop rid outs prev g).2.1 := by
  induction outs generalizing prev g with
  | nil => simp [generationLoop, tokenDeltas]
  | cons head rest ih =>
    obtain ⟨text, fr⟩ := head
    rw [List.map_cons, List.chain'_cons] at h
    obtain ⟨hpre, hchain⟩ := h
    have hpre' : prev <+: text := hpre
    by_cases hd : text.drop prev.length = []
    · have htext : text = prev := by
        have hx := append_drop_of_isPrefix hpre'
        rw [hd, List.append_nil] at hx
        exact hx.symm
      rw [htext] at hchain
      simpa [generationLoop, hd] using ih prev (some (text, fr)) hchain
    · have hjoin := ih text (some (text, fr)) hchain
      simp only [generationLoop, hd, ite_false]
      simp only [tokenDeltas, List.filterMap_cons, StreamEvent.tokenDelta,
        List.flatten_cons]
      rw [← List.append_assoc, append_drop_of_isPrefix hpre']
      exact hjoin

theorem generationLoop_contents_sublist (rid : String)
    (outs : List (Text × Option String)) (prev : Text)
    (g : Option (Text × Option String)) :
    List.Sublist (tokenContents (generationLoop rid outs prev g).1)
      (outs.map Prod.fst) := by
  induction outs generalizing prev g with
  | nil => simp [generationLoop, tokenContents]
  | cons head rest ih =>
    obtain ⟨text, fr⟩ := head
    by_cases hd : text.drop prev.length = []
    · simp only [generationLoop, hd, ite_true, List.map_cons]
      exact (ih prev (some (text, fr))).cons text
    · simp only [generationLoop, hd, ite_false, List.map_cons, tokenContents,
        List.filterMap_cons, StreamEvent.tokenContent]
      exact (ih text (some (text, fr))).cons₂ text

theorem generationLoop_events_are_tokens (rid : String)
    (outs : List (Text × Option String)) (prev : Text)
    (g : Option (Text × Option String)) :
    ∀ e ∈ (generationLoop rid outs prev g).1,
      e.isDone = false ∧ e.isFailure = false := by
  induction outs generalizing prev g with
  | nil => simp [generationLoop]
  | cons head rest ih =>
    obtain ⟨text, fr⟩ := head
    by_cases hd : text.drop prev.length = []
    · simpa [generationLoop, hd] using ih prev (some (text, fr))
    · intro e he
      simp only [generationLoop, hd, ite_false, List.mem_cons] at he
      rcases he with rfl | he
      · exact ⟨rfl, rfl⟩
      · exact ih text (some (text, fr)) e he

/-- C3: for every streamed generation reaching the terminal event under the
generation-service contract that cumulative texts only grow (each yielded
text extends the previous one), the terminal `done` event comes last and
its `content` equals the concatenation, in relay order, of all `delta`
fields of the token events; moreover the cumulative texts the token events
echo form a sublist of the received texts, so deltas are relayed in exactly
the order the cumulative texts arrived. -/
theorem C3_delta_concatenation (rid : String) (outs : List (Text × Option String))
    (messages : List ChatMessage) (persona : Option String) (params : GenerationMetadata)
    (hmono : List.Chain' (· <+: ·) (([] : Text) :: outs.map Prod.fst)) :
    (∃ fr, (iterate_generation rid outs messages persona params).events.getLast? =
        some (StreamEvent.done
          (tokenDeltas (iterate_generation rid outs messages persona params).events).flatten
          fr rid)) ∧
    List.Sublist (tokenContents (iterate_generation rid outs messages persona params).events)
      (outs.map Prod.fst) := by
  have hconcat := generationLoop_concat rid outs [] none hmono
  rw [List.nil_append] at hconcat
  constructor
  · refine ⟨(match (generationLoop rid outs [] none).2.2 with
      | none => none
      | some g => g.2), ?_⟩
    simp only [iterate_generation, tokenDeltas, List.filterMap_append,
      List.filterMap_cons, StreamEvent.tokenDelta, List.filterMap_nil,
      List.append_nil, List.getLast?_concat]
    rw [← tokenDeltas]
    rw [hconcat]
  · simp only [iterate_generation, tokenContents, List.filterMap_append,
      List.filterMap_cons, StreamEvent.tokenContent, List.filterMap_nil,
      List.append_nil]
    exact generationLoop_contents_sublist rid outs [] none

/-- Witness for C3 on Scenario C: cumulative texts `"Hel"`, `"Hello"`,
terminal reason `stop`. -/
theorem C3_delta_concatenation_witness :
    List.Chain' (· <+: ·)
      (([] : Text) ::
        ([("Hel".toList, (none : Option String)),
          ("Hello".toList, some "stop")].map Prod.fst)) ∧
    ((∃ fr, (iterate_generation "r"
          [("Hel".toList, none), ("Hello".toList, some "stop")] [] none
          ⟨1, 0, 0, 0, 0, none, true⟩).events.getLast? =
        some (StreamEvent.done
          (tokenDeltas (iterate_generation "r"
            [("Hel".toList, none), ("Hello".toList, some "stop")] [] none
            ⟨1, 0, 0, 0, 0, none, true⟩).events).flatten fr "r")) ∧
    List.Sublist (tokenContents (iterate_generation "r"
        [("Hel".toList, none), ("Hello".toList, some "stop")] [] none
        ⟨1, 0, 0, 0, 0, none, true⟩).events)
      ([("Hel".toList, (none : Option String)), ("Hello".toList, some "stop")].map Prod.fst)) :=
  have hc : List.Chain' (· <+: ·)
      (([] : Text) ::
        ([("Hel".toList, (none : Option String)),
          ("Hello".toList, some "stop")].map Prod.fst)) := by
    simp only [List.map_cons, List.map_nil]
    exact List.chain'_cons.mpr ⟨⟨"Hel".toList, by decide⟩,
      List.chain'_cons.mpr ⟨⟨"lo".toList, by decide⟩, List.chain'_singleton _⟩⟩
  ⟨hc,
    C3_delta_concatenation "r" [("Hel".toList, none), ("Hello".toList, some "stop")]
      [] none ⟨1, 0, 0, 0, 0, none, true⟩ hc⟩

/-- C8 counterexample: the engine yields cumulative text `"ab"` and then
the non-prefix update `"xyz"`.  The coordinator relays the delta `"z"`
(the slice of `"xyz"` beyond the accumulated length), adopts `"xyz"`
wholesale as the accumulated text, and finishes the stream normally — no
error event is produced, so the protocol violation is silently reconciled
instead of treated as an error. -/
theorem C8_counterexample :
    (iterate_generation "r" [("ab".toList, none), ("xyz".toList, some "stop")]
        [] none ⟨1, 0, 0, 0, 0, none, true⟩).events =
      [StreamEvent.token "ab".toList "ab".toList "r",
       StreamEvent.token "z".toList "xyz".toList "r",
       StreamEvent.done "xyz".toList (some "stop") "r"] ∧
    (iterate_generation "r" [("ab".toList, none), ("xyz".toList, some "stop")]
        [] none ⟨1, 0, 0, 0, 0, none, true⟩).events.all
      (fun e => !e.isFailure) := by
  constructor <;> decide

/-- C8 amended: the delta computation never raises on a protocol
violation.  A cumulative text no longer than the accumulated text yields
an empty delta and is silently skipped (the accumulated text is left
unchanged); a longer text — prefix or not — has exactly the slice beyond
the accumulated length relayed and is adopted wholesale; and no event of a
normally completed run is ever an error event. -/
theorem C8_amended (rid : String) (text : Text) (fr : Option String)
    (rest : List (Text × Option String)) (prev : Text)
    (g : Option (Text × Option String)) (outs : List (Text × Option String))
    (messages : List ChatMessage) (persona : Option String)
    (params : GenerationMetadata) :
    (generationLoop rid ((text, fr) :: rest) prev g =
      if text.length ≤ prev.length then
        generationLoop rid rest prev (some (text, fr))
      else
        (StreamEvent.token (text.drop prev.length) text rid ::
            (generationLoop rid rest text (some (text, fr))).1,
          (generationLoop rid rest text (some (text, fr))).2)) ∧
    (∀ e ∈ (iterate_generation rid outs messages persona params).events,
      e.isFailure = false) := by
  constructor
  · by_cases hle : text.length ≤ prev.length
    · have hd : text.drop prev.length = [] := List.drop_eq_nil_of_le hle
      simp [generationLoop, hd, hle]
    · have hd : text.drop prev.length ≠ [] := by
        intro hnil
        exact hle (by simpa using List.drop_eq_nil_iff.mp hnil)
      simp [generationLoop, hd, hle]
  · intro e he
    simp only [iterate_generation, List.mem_append, List.mem_singleton] at he
    rcases he with he | rfl
    · exact (generationLoop_events_are_tokens rid outs [] none e he).2
    · rfl

/-- Witness for C8 amended, skip branch and relay branch both exercised
through the conjunction at concrete inputs. -/
theorem C8_amended_witness :
    (generationLoop "r" [("a".toList, none)] "ab".toList none =
      if ("a".toList : Text).length ≤ ("ab".toList : Text).length then
        generationLoop "r" [] "ab".toList (some ("a".toList, none))
      else
        (StreamEvent.token ("a".toList.drop "ab".toList.length) "a".toList "r" ::
            (generationLoop "r" [] "a".toList (some ("a".toList, none))).1,
          (generationLoop "r" [] "a".toList (some ("a".toList, none))).2)) ∧
    (∀ e ∈ (iterate_generation "r" [("ab".toList, none), ("xyz".toList, some "stop")]
        [] none ⟨1, 0, 0, 0, 0, none, true⟩).events, e.isFailure = false) :=
  C8_amended "r" "a".toList none [] "ab".toList none
    [("ab".toList, none), ("xyz".toList, some "stop")] [] none
    ⟨1, 0, 0, 0, 0, none, true⟩

/-- C2 counterexample: the engine yields cumulative texts `"He"` and
`"Hello w"`; the caller consumes two relayed fragments and then cancels.
`CancelledError` is not an `Exception` in Python ≥ 3.8, so the
`except Exception` handler of `iterate_generation` does not run: nothing
at all is persisted — in particular no Transcript with terminal reason
`cancelled` and text equal to the accumulated fragments exists. -/
theorem C2_counterexample :
    (iterate_generation_cancelled "r"
        [("He".toList, none), ("Hello w".toList, none)] 2
        [] none ⟨1, 0, 0, 0, 0, none, true⟩).events =
      [StreamEvent.token "He".toList "He".toList "r",
       StreamEvent.token "llo w".toList "Hello w".toList "r"] ∧
    (iterate_generation_cancelled "r"
        [("He".toList, none), ("Hello w".toList, none)] 2
        [] none ⟨1, 0, 0, 0, 0, none, true⟩).persisted = none := by
  constructor <;> decide

/-- C2 amended: on a mid-stream cancellation the coordinator persists
nothing (no Transcript at all — a `cancelled` terminal reason does not
exist in the code), schedules no refresh, and the caller has seen only
token events (never a terminal `done`); the abort signal reaches the
engine only in `engine.py`'s `_local_stream_generate`, whose
`CancelledError` handler calls `abort_request` for the request id. -/
theorem C2_amended (rid : String) (outs : List (Text × Option String))
    (k : Nat) (messages : List ChatMessage) (persona : Option String)
    (params : GenerationMetadata) (chunks : List Text) :
    (iterate_generation_cancelled rid outs k messages persona params).persisted = none ∧
    (iterate_generation_cancelled rid outs k messages persona params).refreshScheduled
      = false ∧
    (∀ e ∈ (iterate_generation_cancelled rid outs k messages persona params).events,
      e.isDone = false ∧ e.isFailure = false) ∧
    (local_stream_generate_cancelled chunks k).abortCalled = true := by
  refine ⟨rfl, rfl, ?_, rfl⟩
  intro e he
  simp only [iterate_generation_cancelled] at he
  exact generationLoop_events_are_tokens rid outs [] none e (List.mem_of_mem_take he)

/-! ### Prompt construction helpers -/

theorem foldl_append_singleton {α β : Type} (f : α → β) (ms : List α) (acc : List β) :
    ms.foldl (fun segs m => segs ++ [f m]) acc = acc ++ ms.map f := by
  induction ms generalizing acc with
  | nil => simp
  | cons m rest ih => simp [List.foldl_cons, ih]

theorem build_prompt_foldl (ms : List ChatMessage) (acc : List String) :
    ms.foldl
        (fun ls m =>
          let content := pyStrip m.content
          if content = "" then ls
          else ls ++ [role_label (pyLower m.role) ++ ": " ++ content])
        acc =
      acc ++ (ms.filter (fun m => pyStrip m.content != "")).map
        (fun m => role_label (pyLower m.role) ++ ": " ++ pyStrip m.content) := by
  induction ms generalizing acc with
  | nil => simp
  | cons m rest ih =>
    by_cases h : pyStrip m.content = "" <;>
      simp [List.foldl_cons, List.filter_cons, h, ih]

/-- C5 counterexample: `format_chat_prompt` does not omit messages whose
content is empty after trimming — prepending a whitespace-only message
changes the produced prompt (the segment `"User: "` is rendered), which
the claimed omission would forbid. -/
theorem C5_counterexample :
    format_chat_prompt [⟨"user", "  "⟩, ⟨"user", "Hi"⟩] ≠
      format_chat_prompt [⟨"user", "Hi"⟩] := by
  decide

/-- C5 amended: `format_chat_prompt` renders every message — including
ones whose content trims to empty — as `"<Role>: <content>"` in input
order, then appends a fixed System instruction segment and the trailing
`"Assistant:"` marker as the final segment (blank-line separated); it is
`engine.py`'s `build_prompt` that omits empty-after-trim messages before
appending its own trailing `"Assistant:"` line.  Both constructions are
pure functions of the conversation. -/
theorem C5_amended (messages msgs2 : List ChatMessage) (h : messages ≠ []) :
    format_chat_prompt messages =
      Except.ok (String.intercalate "\n\n"
        (messages.map renderChatMessage ++ [SYSTEM_GUARD_SEGMENT, "Assistant:"])) ∧
    build_prompt msgs2 none =
      String.intercalate "\n"
        ((msgs2.filter (fun m => pyStrip m.content != "")).map
          (fun m => role_label (pyLower m.role) ++ ": " ++ pyStrip m.content) ++
          ["Assistant:"]) := by
  constructor
  · have hne : messages.isEmpty = false := by
      cases messages with
      | nil => exact absurd rfl h
      | cons m rest => rfl
    simp only [format_chat_prompt, hne, Bool.false_eq_true, if_false,
      chatPromptSegments, foldl_append_singleton, List.nil_append]
  · simp only [build_prompt, build_prompt_foldl, List.nil_append]

/-- Witness for C5 amended on a one-message conversation and a
conversation with a whitespace-only turn. -/
theorem C5_amended_witness :
    format_chat_prompt [⟨"user", "Hello"⟩] =
      Except.ok (String.intercalate "\n\n"
        ([⟨"user", "Hello"⟩].map renderChatMessage ++
          [SYSTEM_GUARD_SEGMENT, "Assistant:"])) ∧
    build_prompt [⟨"user", " "⟩, ⟨"assistant", "Yo"⟩] none =
      String.intercalate "\n"
        (([(⟨"user", " "⟩ : ChatMessage), ⟨"assistant", "Yo"⟩].filter
            (fun m => pyStrip m.content != "")).map
          (fun m => role_label (pyLower m.role) ++ ": " ++ pyStrip m.content) ++
          ["Assistant:"]) :=
  C5_amended [⟨"user", "Hello"⟩] [⟨"user", " "⟩, ⟨"assistant", "Yo"⟩] (by decide)

/-- C6: the generate endpoint on the empty conversation fails with the
`InvalidRequest`-class client error (HTTP 400, raised from
`format_chat_prompt`'s `ValueError`) before any work: the engine is never
invoked, nothing is persisted, and no refresh is signalled — in both
streaming and buffered modes, for any engine behaviour. -/
theorem C6_empty_conversation (payload : GenerateRequest)
    (outs : List (Text × Option String)) (rid : String)
    (h : payload.messages = []) :
    generate payload outs rid =
      { result := Except.error (400, "At least one message is required.")
        engineCalled := false
        persisted := none
        refreshScheduled := false } := by
  simp [generate, format_chat_prompt, h]

/-- Witness for C6: the empty conversation, buffered mode, an engine that
would have produced output. -/
theorem C6_empty_conversation_witness :
    generate ⟨[], false, 128, 0, 0, 0, 0, none, none⟩
        [("Hi".toList, some "stop")] "req-1" =
      { result := Except.error (400, "At least one message is required.")
        engineCalled := false
        persisted := none
        refreshScheduled := false } :=
  C6_empty_conversation ⟨[], false, 128, 0, 0, 0, 0, none, none⟩
    [("Hi".toList, some "stop")] "req-1" rfl

/-! ### OrchestratorJob helpers -/

theorem orchestrator_foldl (sf : String → List ChatTranscript → String)
    (g : List (String × List ChatTranscript)) (acc : List (String × String)) :
    g.foldl
        (fun acc pt =>
          if pt.2 = [] then acc
          else acc ++ [(pt.1, clamp_lines (sf pt.1 pt.2) 5)])
        acc =
      acc ++ (g.filter (fun pt => pt.2 != [])).map
        (fun pt => (pt.1, clamp_lines (sf pt.1 pt.2) 5)) := by
  induction g generalizing acc with
  | nil => simp
  | cons pt rest ih =>
    by_cases h : pt.2 = [] <;>
      simp [List.foldl_cons, List.filter_cons, h, ih]

/-- C4 counterexample: a grouping with one persona holding one transcript,
where the generation service returns the empty summary for it.
`run_orchestrator_job` does not fail with `NoTranscripts`: it returns a
result whose summaries map the persona to the empty string, because the
summaries dict receives an entry for every summarised persona regardless
of whether the summary text is empty. -/
theorem C4_counterexample :
    run_orchestrator_job
        [("pm", [⟨"t1", [], "", none, some "pm", ⟨1, 0, 0, 0, 0, none, false⟩, 0⟩])]
        (fun _ _ => "") (fun _ => "") false =
      Except.ok { summaries := [("pm", "")], requirements_document := "" } := by
  decide

/-- C4 amended: `run_orchestrator_job` fails with `NoTranscripts` exactly
when the grouping is empty or every persona's transcript list is empty;
whenever some persona has at least one transcript the job returns a
result, entering an entry for each such persona even when its generated
summary text is empty. -/
theorem C4_amended (g : List (String × List ChatTranscript))
    (sf : String → List ChatTranscript → String)
    (rf : List (String × String) → String) (ir : Bool) :
    run_orchestrator_job g sf rf ir = Except.error OrchError.NoTranscripts ↔
      (g = [] ∨ ∀ pt ∈ g, pt.2 = ([] : List ChatTranscript)) := by
  by_cases hg : g = []
  · simp [run_orchestrator_job, hg]
  · simp only [run_orchestrator_job, hg, if_false, orchestrator_foldl,
      List.nil_append]
    by_cases hs : (g.filter (fun pt => pt.2 != [])).map
        (fun pt => (pt.1, clamp_lines (sf pt.1 pt.2) 5)) = []
    · rw [List.map_eq_nil_iff] at hs
      simp only [hs, List.map_nil, ite_true]
      constructor
      · intro _
        right
        intro pt hpt
        have := List.filter_eq_nil_iff.mp hs pt hpt
        simpa using this
      · intro _
        trivial
    · simp only [hs, ite_false]
      constructor
      · intro hcontr
        exact absurd hcontr (by simp)
      · intro hall
        rcases hall with hnil | hall
        · exact hnil.elim
        · exfalso
          apply hs
          rw [List.map_eq_nil_iff, List.filter_eq_nil_iff]
          intro pt hpt
          simpa using hall pt hpt

/-! ### Transcript-cap helpers -/

theorem sorted_take_drop {r : ChatTranscript → ChatTranscript → Prop}
    (l : List ChatTranscript) (n : Nat) (hs : List.Sorted r l) :
    ∀ x ∈ l.take n, ∀ y ∈ l.drop n, r x y := by
  have hsplit : List.Pairwise r (l.take n ++ l.drop n) := by
    rw [List.take_append_drop]
    exact hs
  exact (List.pairwise_append.mp hsplit).2.2

theorem capPersonaList_perm (limit : Nat) (ts : List ChatTranscript) :
    List.Perm (capPersonaList limit ts) ((ts.insertionSort descCreated).take limit) :=
  List.perm_insertionSort ascCreated _

theorem capPersonaList_sorted (limit : Nat) (ts : List ChatTranscript) :
    List.Sorted ascCreated (capPersonaList limit ts) :=
  List.sorted_insertionSort ascCreated _

/-- C7: loading transcripts with a positive cap smaller than a persona's
stored list returns, for that persona, exactly `cap` entries, sorted into
chronological (oldest-first) order, consisting (as a multiset) of the
first `cap` entries of the newest-first ordering, and every entry left out
is no newer than every entry kept; personas absent from the store do not
appear, since the result carries exactly the stored persona keys. -/
theorem C7_transcript_cap (groups : List (String × List ChatTranscript))
    (p : String) (ts : List ChatTranscript) (cap : Nat)
    (hcap : 0 < cap) (hlen : cap < ts.length) (hmem : (p, ts) ∈ groups) :
    (p, capPersonaList cap ts) ∈ load_transcripts_sync groups none (some cap) ∧
    (capPersonaList cap ts).length = cap ∧
    List.Sorted ascCreated (capPersonaList cap ts) ∧
    List.Perm (capPersonaList cap ts) ((ts.insertionSort descCreated).take cap) ∧
    (∀ x ∈ capPersonaList cap ts, ∀ y ∈ ts, y ∉ capPersonaList cap ts →
      y.created_at ≤ x.created_at) ∧
    (load_transcripts_sync groups none (some cap)).map Prod.fst =
      groups.map Prod.fst := by
  obtain ⟨m, rfl⟩ : ∃ m, cap = m + 1 := ⟨cap - 1, by omega⟩
  have hperm := capPersonaList_perm (m + 1) ts
  have hdperm : List.Perm (ts.insertionSort descCreated) ts :=
    List.perm_insertionSort descCreated ts
  refine ⟨?_, ?_, capPersonaList_sorted (m + 1) ts, hperm, ?_, ?_⟩
  · simp only [load_transcripts_sync]
    exact List.mem_map.mpr ⟨(p, ts), hmem, rfl⟩
  · rw [hperm.length_eq, List.length_take, hdperm.length_eq]
    omega
  · intro x hx y hy hyout
    have hysorted : y ∈ ts.insertionSort descCreated := hdperm.mem_iff.mpr hy
    have hxtake : x ∈ (ts.insertionSort descCreated).take (m + 1) :=
      hperm.mem_iff.mp hx
    have hydrop : y ∈ (ts.insertionSort descCreated).drop (m + 1) := by
      rcases (List.mem_append.mp
          (by rw [List.take_append_drop]; exact hysorted :
            y ∈ (ts.insertionSort descCreated).take (m + 1) ++
              (ts.insertionSort descCreated).drop (m + 1))) with hyt | hyd
      · exact absurd (hperm.mem_iff.mpr hyt) hyout
      · exact hyd
    exact sorted_take_drop (ts.insertionSort descCreated) (m + 1)
      (List.sorted_insertionSort descCreated ts) x hxtake y hydrop
  · simp only [load_transcripts_sync, List.map_map]
    rfl

/-- Witness for C7 on Scenario D: a store holding only persona `"pm"` with
six transcripts, cap five. -/
theorem C7_transcript_cap_witness :
    (0 < 5 ∧ 5 < pmExampleTranscripts.length ∧
      ("pm", pmExampleTranscripts) ∈ [("pm", pmExampleTranscripts)]) ∧
    ("pm", capPersonaList 5 pmExampleTranscripts) ∈
      load_transcripts_sync [("pm", pmExampleTranscripts)] none (some 5) ∧
    (capPersonaList 5 pmExampleTranscripts).length = 5 ∧
    List.Sorted ascCreated (capPersonaList 5 pmExampleTranscripts) ∧
    List.Perm (capPersonaList 5 pmExampleTranscripts)
      ((pmExampleTranscripts.insertionSort descCreated).take 5) :=
  have happ := C7_transcript_cap [("pm", pmExampleTranscripts)] "pm"
    pmExampleTranscripts 5 (by decide) (by decide) (by decide)
  ⟨⟨by decide, by decide, by decide⟩, happ.1, happ.2.1, happ.2.2.1, happ.2.2.2.1⟩

/-! ### Persona persistence helpers -/

theorem asString_eq_empty {t : Text} (h : t.asString = "") : t = [] := by
  have hd := congrArg String.toList h
  simpa [List.toList_asString] using hd

/-- C9 counterexample: a completed request with no persona supplied.  The
persisted JSON document records `persona: null` — the raw value — not the
sentinel `"general"`, which only names the storage directory. -/
theorem C9_counterexample :
    (ChatTranscript.as_dict
        ⟨"r1", [⟨"user", "Hello"⟩], "Hi there", none, none,
          ⟨1, 0, 0, 0, 0, none, false⟩, 0⟩).persona ≠ some "general" := by
  decide

/-- C9 amended: for an absent or blank persona, the persisted JSON records
the raw persona value unchanged (`null` when absent); the sentinel
`"general"` appears as the storage directory slug chosen by
`_normalise_persona` and as the grouping key used when the document is
loaded back (`payload.get("persona") or "general"`, which substitutes for
absent and empty values).  A completed buffered request persists exactly
one transcript whose response text is the stripped full engine output and
whose persona field is the caller's raw value. -/
theorem C9_amended (t : ChatTranscript) (payload : GenerateRequest)
    (outs : List (Text × Option String)) (rid : String)
    (hp : t.persona = none ∨ ∃ p, t.persona = some p ∧ pyStrip p = "")
    (hs : payload.stream = false) (hm : payload.messages ≠ []) :
    t.as_dict.persona = t.persona ∧
    ChatStorage.file_persona_slug t = "general" ∧
    (t.persona = none → personaKeyOfJson t.as_dict = "general") ∧
    (generate payload outs rid).persisted =
      some { request_id := rid
             messages := payload.messages
             response_text := pyStripList (bufferedLoop outs [] none).1
             finish_reason := (bufferedLoop outs [] none).2
             persona := payload.persona
             parameters := build_generation_metadata payload } := by
  refine ⟨rfl, ?_, ?_, ?_⟩
  · rcases hp with hnone | ⟨p, hsome, hblank⟩
    · simp [ChatStorage.file_persona_slug, _normalise_persona, hnone]
    · by_cases hpe : p = ""
      · simp [ChatStorage.file_persona_slug, _normalise_persona, hsome, hpe]
      · have hlist : pyStripList p.toList = [] :=
          asString_eq_empty hblank
        have hlist' : pyStripList p.data = [] := by
          simpa [String.toList] using hlist
        simp [ChatStorage.file_persona_slug, _normalise_persona, hsome, hpe,
          String.toList, hlist', subNonSlug, stripDashes]
  · intro hnone
    simp [personaKeyOfJson, ChatTranscript.as_dict, hnone]
  · have hne : payload.messages.isEmpty = false := by
      cases hmm : payload.messages with
      | nil => exact absurd hmm hm
      | cons m rest => rfl
    simp [generate, format_chat_prompt, hne, hs]

/-- Witness for C9 amended: persona absent, buffered engine output
`"  Hi  "` with reason `stop` — the persisted text is the stripped
`"Hi"` and the persisted persona is `null`. -/
theorem C9_amended_witness :
    (ChatTranscript.as_dict
          ⟨"r1", [⟨"user", "Hello"⟩], "Hi", some "stop", none,
            ⟨1, 0, 0, 0, 0, none, false⟩, 0⟩).persona =
        (⟨"r1", [⟨"user", "Hello"⟩], "Hi", some "stop", none,
            ⟨1, 0, 0, 0, 0, none, false⟩, 0⟩ : ChatTranscript).persona ∧
    ChatStorage.file_persona_slug
        ⟨"r1", [⟨"user", "Hello"⟩], "Hi", some "stop", none,
          ⟨1, 0, 0, 0, 0, none, false⟩, 0⟩ = "general" ∧
    ((⟨"r1", [⟨"user", "Hello"⟩], "Hi", some "stop", none,
          ⟨1, 0, 0, 0, 0, none, false⟩, 0⟩ : ChatTranscript).persona = none →
      personaKeyOfJson (ChatTranscript.as_dict
        ⟨"r1", [⟨"user", "Hello"⟩], "Hi", some "stop", none,
          ⟨1, 0, 0, 0, 0, none, false⟩, 0⟩) = "general") ∧
    (generate ⟨[⟨"user", "Hello"⟩], false, 64, 0, 0, 0, 0, none, none⟩
        [("  Hi  ".toList, some "stop")] "r1").persisted =
      some { request_id := "r1"
             messages := [⟨"user", "Hello"⟩]
             response_text := pyStripList
               (bufferedLoop [("  Hi  ".toList, some "stop")] [] none).1
             finish_reason := (bufferedLoop [("  Hi  ".toList, some "stop")] [] none).2
             persona := none
             parameters := build_generation_metadata
               ⟨[⟨"user", "Hello"⟩], false, 64, 0, 0, 0, 0, none, none⟩ } :=
  C9_amended
    ⟨"r1", [⟨"user", "Hello"⟩], "Hi", some "stop", none,
      ⟨1, 0, 0, 0, 0, none, false⟩, 0⟩
    ⟨[⟨"user", "Hello"⟩], false, 64, 0, 0, 0, 0, none, none⟩
    [("  Hi  ".toList, some "stop")] "r1"
    (Or.inl rfl) rfl (by decide)

/-! ### Stop-sequence helpers -/

theorem mem_dedupKeepFirst (a : String) (l : List String) :
    a ∈ dedupKeepFirst l ↔ a ∈ l := by
  induction l using dedupKeepFirst.induct with
  | case1 => simp [dedupKeepFirst]
  | case2 b l ih =>
    rw [dedupKeepFirst]
    by_cases hab : a = b
    · simp [hab]
    · simp only [List.mem_cons, hab, false_or]
      rw [ih]
      simp [List.mem_filter, hab, bne]

theorem sublist_dedupKeepFirst (l : List String) :
    List.Sublist (dedupKeepFirst l) l := by
  induction l using dedupKeepFirst.induct with
  | case1 => simp [dedupKeepFirst]
  | case2 b l ih =>
    rw [dedupKeepFirst]
    exact (ih.trans (List.filter_sublist l)).cons₂ b

theorem nodup_dedupKeepFirst (l : List String) :
    (dedupKeepFirst l).Nodup := by
  induction l using dedupKeepFirst.induct with
  | case1 => simp [dedupKeepFirst]
  | case2 b l ih =>
    rw [dedupKeepFirst]
    refine List.nodup_cons.mpr ⟨?_, ih⟩
    intro hmem
    have hfil := (mem_dedupKeepFirst b _).mp hmem
    have := List.of_mem_filter hfil
    simp [bne] at this

/-- C10: the sampling parameters built for every generate request always
contain both default stop sequences `"\nSystem:"` and `"\nUser:"`; with no
caller stops (or the falsy empty list) the stop list is exactly the
defaults; with caller stops it is the caller's list followed by the
defaults, deduplicated keeping first occurrences — hence duplicate-free,
an order-preserving selection from caller stops followed by defaults, and
retaining every caller stop.  Caller-provided stops therefore can never
remove the role-prefix stops. -/
theorem C10_stop_sequences (payload : GenerateRequest) :
    "\nSystem:" ∈ (build_sampling_params payload).stop ∧
    "\nUser:" ∈ (build_sampling_params payload).stop ∧
    (build_sampling_params payload).stop.Nodup ∧
    ((payload.stop = none ∨ payload.stop = some []) →
      (build_sampling_params payload).stop = DEFAULT_STOP_SEQUENCES) ∧
    (∀ l, payload.stop = some l → l ≠ [] →
      (build_sampling_params payload).stop = dedupKeepFirst (l ++ DEFAULT_STOP_SEQUENCES) ∧
      List.Sublist (build_sampling_params payload).stop (l ++ DEFAULT_STOP_SEQUENCES) ∧
      ∀ s ∈ l, s ∈ (build_sampling_params payload).stop) := by
  have hstop : (build_sampling_params payload).stop =
      build_stop_sequences payload.stop := rfl
  rcases hcase : payload.stop with _ | ⟨_ | ⟨x, xs⟩⟩
  · refine ⟨?_, ?_, ?_, fun _ => ?_, ?_⟩ <;>
      simp [hstop, hcase, build_stop_sequences, DEFAULT_STOP_SEQUENCES]
  · refine ⟨?_, ?_, ?_, fun _ => ?_, ?_⟩ <;>
      simp [hstop, hcase, build_stop_sequences, DEFAULT_STOP_SEQUENCES]
  · have hbuild : build_stop_sequences (some (x :: xs)) =
        dedupKeepFirst ((x :: xs) ++ DEFAULT_STOP_SEQUENCES) := rfl
    refine ⟨?_, ?_, ?_, ?_, ?_⟩
    · rw [hstop, hcase, hbuild, mem_dedupKeepFirst]
      simp [DEFAULT_STOP_SEQUENCES]
    · rw [hstop, hcase, hbuild, mem_dedupKeepFirst]
      simp [DEFAULT_STOP_SEQUENCES]
    · rw [hstop, hcase, hbuild]
      exact nodup_dedupKeepFirst _
    · intro hcontr
      rcases hcontr with h | h <;> simp [hcase] at h
    · intro l hl _
      have hlx : l = x :: xs := (Option.some_inj.mp hl).symm
      subst hlx
      refine ⟨by rw [hstop, hcase, hbuild], ?_, ?_⟩
      · rw [hstop, hcase, hbuild]
        exact sublist_dedupKeepFirst _
      · intro s hs
        rw [hstop, hcase, hbuild, mem_dedupKeepFirst]
        exact List.mem_append_left _ hs

end SEproj
